import Mathlib

/-!
Shallow embedding of `Library Inventory Manager/assignment3.py`:
a single-file library catalog manager (Book records, a LibraryInventory
store, JSON persistence).  Python exceptions are modelled with `Except`,
the backing JSON file with an explicit `JsonFile` value, `logging` output
with a list of messages, and `datetime.datetime.now()` with an explicit
`PyDateTime` argument threaded through the operations that read the clock.
-/

namespace Assignment3

/-- The `Book` dataclass: six string fields, with the dataclass defaults
`status="available"`, `issued_to=""`, `issued_on=""`. -/
structure Book where
  title : String
  author : String
  isbn : String
  status : String := "available"
  issued_to : String := ""
  issued_on : String := ""
deriving DecidableEq, Repr

/-- A wall-clock reading, standing in for `datetime.datetime.now()`. -/
structure PyDateTime where
  year : Nat
  month : Nat
  day : Nat
  hour : Nat
  minute : Nat
  second : Nat
deriving DecidableEq, Repr

/-- Zero-padding to two digits, as in ISO-8601 components. -/
def pad2 (n : Nat) : String :=
  if n < 10 then "0" ++ toString n else toString n

/-- Zero-padding to four digits, as in ISO-8601 years. -/
def pad4 (n : Nat) : String :=
  if n < 10 then "000" ++ toString n
  else if n < 100 then "00" ++ toString n
  else if n < 1000 then "0" ++ toString n
  else toString n

/-- `datetime.datetime.now().isoformat(timespec="seconds")`:
the `YYYY-MM-DDTHH:MM:SS` rendering of a clock reading. -/
def PyDateTime.isoformatSeconds (d : PyDateTime) : String :=
  pad4 d.year ++ "-" ++ pad2 d.month ++ "-" ++ pad2 d.day ++ "T" ++
    pad2 d.hour ++ ":" ++ pad2 d.minute ++ ":" ++ pad2 d.second

/-- `Book.is_available`: `self.status == "available"`. -/
def Book.is_available (b : Book) : Bool :=
  b.status == "available"

/-- `Book.issue(user_name)`: raises `Exception` when not available,
otherwise sets `status`, `issued_to`, `issued_on` (the clock reading is an
explicit argument). -/
def Book.issue (b : Book) (user_name : String) (now : PyDateTime) :
    Except String Book :=
  if b.is_available then
    .ok { b with status := "issued", issued_to := user_name,
                 issued_on := now.isoformatSeconds }
  else
    .error ("Book already issued to " ++ b.issued_to ++ ".")

/-- `Book.return_book()`: raises `Exception` when already available,
otherwise resets `status`, `issued_to`, `issued_on`. -/
def Book.return_book (b : Book) : Except String Book :=
  if b.is_available then
    .error "Book is already available."
  else
    .ok { b with status := "available", issued_to := "", issued_on := "" }

/-- The keyword arguments of a `Book(**item)` call that succeeds:
`title`, `author`, `isbn` are required, the other three optional
(dataclass defaults fill them in). -/
structure BookKwargs where
  title : String
  author : String
  isbn : String
  status : Option String
  issued_to : Option String
  issued_on : Option String
deriving DecidableEq, Repr

/-- `Book(**item)`: constructs a `Book` from keyword arguments, applying
the dataclass defaults for the missing optional keys. -/
def mkBook (k : BookKwargs) : Book :=
  { title := k.title, author := k.author, isbn := k.isbn,
    status := k.status.getD "available",
    issued_to := k.issued_to.getD "",
    issued_on := k.issued_on.getD "" }

/-- `Book.to_dict` (`dataclasses.asdict`): the JSON object written for one
book, carrying all six fields. -/
def Book.to_dict (b : Book) : BookKwargs :=
  ⟨b.title, b.author, b.isbn, some b.status, some b.issued_to,
    some b.issued_on⟩

/-- One element of the top-level JSON array: either an object on which
`Book(**item)` succeeds, or a value on which it raises (missing or extra
keys, or a non-object element). -/
inductive JsonRecord where
  | good (k : BookKwargs)
  | bad
deriving DecidableEq, Repr

/-- The state of the backing file, at the granularity the program
observes: absent, unparseable text (`json.JSONDecodeError`), parseable
JSON that is not an array of records, or an array of records. -/
inductive JsonFile where
  | absent
  | invalid
  | nonArrayData
  | array (rs : List JsonRecord)
deriving DecidableEq, Repr

/-- `logger.error("JSON corrupt. Starting empty catalog.")`. -/
def LOG_JSON_CORRUPT : String := "JSON corrupt. Starting empty catalog."

/-- `logger.exception("Unexpected error loading file.")`. -/
def LOG_LOAD_ERROR : String := "Unexpected error loading file."

/-- `logger.error("Failed to save: %s", e)`. -/
def LOG_SAVE_FAILED : String := "Failed to save"

/-- `logger.info(f"Book added: ...")`. -/
def logBookAdded (b : Book) : String := "Book added: " ++ b.title

/-- `Book(**item)` on one array element: `some` kwargs when construction
succeeds, `none` when it raises. -/
def JsonRecord.asKwargs : JsonRecord → Option BookKwargs
  | .good k => some k
  | .bad => none

/-- `[Book(**item) for item in data]`: builds the whole list, or raises
(`none`) at the first element on which `Book(**item)` raises. -/
def loadRecords : List JsonRecord → Option (List Book)
  | [] => some []
  | r :: rs =>
    match r.asKwargs with
    | none => none
    | some k => (loadRecords rs).map (fun bs => mkBook k :: bs)

/-- `LibraryInventory.load_from_file`: reads the backing file and returns
the new `books` list together with the log messages emitted.  An absent
file gives an empty list silently; a `JSONDecodeError` and any other
exception (e.g. a `TypeError` from `Book(**item)`) each log a message and
reset the list to empty. -/
def load_from_file : JsonFile → List Book × List String
  | .absent => ([], [])
  | .invalid => ([], [LOG_JSON_CORRUPT])
  | .nonArrayData => ([], [LOG_LOAD_ERROR])
  | .array rs =>
    match loadRecords rs with
    | some bs => (bs, [])
    | none => ([], [LOG_LOAD_ERROR])

/-- `LibraryInventory.save_to_file`: serializes every book (via
`to_dict`) into the backing file.  `writeOk` says whether the file write
succeeds; on failure the exception is caught and logged, the function
returns normally either way (its caller sees no error). -/
def save_to_file (writeOk : Bool) (books : List Book) (file : JsonFile) :
    JsonFile × List String :=
  if writeOk then (.array (books.map (fun b => .good b.to_dict)), [])
  else (file, [LOG_SAVE_FAILED])

/-- The in-memory inventory together with its backing file and the log
emitted so far. -/
structure LibraryState where
  books : List Book
  file : JsonFile
  log : List String
deriving DecidableEq, Repr

/-- The Python exception types the inventory raises, with their
messages. -/
inductive PyError where
  | valueError (msg : String)
  | fileNotFoundError (msg : String)
  | exception (msg : String)
deriving DecidableEq, Repr

/-- `LibraryInventory.add_book`: rejects a duplicate ISBN with
`ValueError`, otherwise appends, saves, and logs. -/
def add_book (writeOk : Bool) (st : LibraryState) (book : Book) :
    Except PyError LibraryState :=
  if st.books.any (fun b => b.isbn == book.isbn) then
    .error (.valueError "ISBN already exists in catalog.")
  else
    let books := st.books ++ [book]
    let saved := save_to_file writeOk books st.file
    .ok { books := books, file := saved.1,
          log := st.log ++ saved.2 ++ [logBookAdded book] }

/-- Python `q in s` on strings: substring containment. -/
def pyIn (q s : String) : Bool :=
  decide (q.data <:+: s.data)

/-- Python `s.lower()`: lower-casing character by character. -/
def pyLower (s : String) : String :=
  String.mk (s.data.map Char.toLower)

/-- `LibraryInventory.search_by_title`: case-insensitive substring filter
over titles, by `text.lower() in b.title.lower()`. -/
def search_by_title (books : List Book) (text : String) : List Book :=
  books.filter (fun b => pyIn (pyLower text) (pyLower b.title))

/-- `LibraryInventory.search_by_isbn`: linear scan returning the first
book with an exactly matching ISBN, or `None`. -/
def search_by_isbn (books : List Book) (isbn : String) : Option Book :=
  books.find? (fun b => b.isbn == isbn)

/-- `LibraryInventory.display_all`: a copy of the whole list. -/
def display_all (books : List Book) : List Book :=
  books

/-- The effect on the list of mutating, in place, the object
`search_by_isbn` returned: the first book with the given ISBN is replaced
and every other element is untouched. -/
def replaceFirst : List Book → String → Book → List Book
  | [], _, _ => []
  | b :: bs, isbn, nb =>
    if b.isbn == isbn then nb :: bs else b :: replaceFirst bs isbn nb

/-- `LibraryInventory.issue_book`: looks the ISBN up
(`FileNotFoundError` when absent), delegates to `Book.issue` (whose
`Exception` propagates before any save), and saves on success. -/
def issue_book (writeOk : Bool) (st : LibraryState) (isbn user_name : String)
    (now : PyDateTime) : Except PyError LibraryState :=
  match search_by_isbn st.books isbn with
  | none => .error (.fileNotFoundError "Book with that ISBN not found.")
  | some book =>
    match book.issue user_name now with
    | .error m => .error (.exception m)
    | .ok b2 =>
      let books := replaceFirst st.books isbn b2
      let saved := save_to_file writeOk books st.file
      .ok { books := books, file := saved.1, log := st.log ++ saved.2 }

/-- `LibraryInventory.return_book`: symmetric to `issue_book`. -/
def inv_return_book (writeOk : Bool) (st : LibraryState) (isbn : String) :
    Except PyError LibraryState :=
  match search_by_isbn st.books isbn with
  | none => .error (.fileNotFoundError "Book not found.")
  | some book =>
    match book.return_book with
    | .error m => .error (.exception m)
    | .ok b2 =>
      let books := replaceFirst st.books isbn b2
      let saved := save_to_file writeOk books st.file
      .ok { books := books, file := saved.1, log := st.log ++ saved.2 }

/-- The per-book half of the spec's invariant: `issued_to`/`issued_on`
are non-empty iff status = issued. -/
def Book.invariant (b : Book) : Prop :=
  (b.issued_to ≠ "" ∧ b.issued_on ≠ "") ↔ b.status = "issued"

instance (b : Book) : Decidable b.invariant := by
  unfold Book.invariant; infer_instance

/-- A sample available book. -/
def bookDune : Book := { title := "Dune", author := "Herbert", isbn := "111" }

/-- A second sample book sharing `bookDune`'s ISBN. -/
def bookDuneCopy : Book := { title := "Dune Copy", author := "X", isbn := "111" }

/-- A sample issued book. -/
def bookIssuedBob : Book :=
  { title := "Foundation", author := "Asimov", isbn := "222",
    status := "issued", issued_to := "Bob", issued_on := "2024-01-01T10:30:00" }

/-- A sample clock reading. -/
def dt0 : PyDateTime := ⟨2024, 1, 1, 10, 30, 0⟩

/-- The book produced by issuing `bookDune` to the empty user name at `dt0`. -/
def bookIssuedEmptyUser : Book :=
  { title := "Dune", author := "Herbert", isbn := "111",
    status := "issued", issued_to := "", issued_on := dt0.isoformatSeconds }

/-- A sample one-book library state over an empty backing file. -/
def stDune : LibraryState := { books := [bookDune], file := .array [], log := [] }

/-- The book produced by `Book.issue`'s successful branch. -/
def issuedVersion (bk : Book) (user : String) (now : PyDateTime) : Book :=
  { bk with status := "issued", issued_to := user,
            issued_on := now.isoformatSeconds }

/-- The book produced by `Book.return_book`'s successful branch. -/
def returnedVersion (bk : Book) : Book :=
  { bk with status := "available", issued_to := "", issued_on := "" }

/-- The state after an inventory mutation replaced the book list with
`books` and then called `save_to_file`. -/
def afterSave (writeOk : Bool) (st : LibraryState) (books : List Book) :
    LibraryState :=
  { books := books, file := (save_to_file writeOk books st.file).1,
    log := st.log ++ (save_to_file writeOk books st.file).2 }

/-- The state after a successful `add_book` (append, save, info log). -/
def afterAdd (writeOk : Bool) (st : LibraryState) (b : Book) : LibraryState :=
  { books := st.books ++ [b],
    file := (save_to_file writeOk (st.books ++ [b]) st.file).1,
    log := st.log ++ (save_to_file writeOk (st.books ++ [b]) st.file).2 ++
      [logBookAdded b] }

/-- `bookDune` issued to "Alice" at `dt0`. -/
def bookIssuedAlice : Book :=
  { title := "Dune", author := "Herbert", isbn := "111",
    status := "issued", issued_to := "Alice", issued_on := dt0.isoformatSeconds }

/-- The state reached from `stDune` by issuing to "Alice" with the write
failing. -/
def stDuneIssuedAlice : LibraryState :=
  { books := [bookIssuedAlice], file := .array [], log := [LOG_SAVE_FAILED] }

/-- A second book with `bookDune`'s ISBN and an illegal status value:
`load_from_file` accepts records like this one unchecked. -/
def bookDup2 : Book :=
  { title := "Dune II", author := "Y", isbn := "111", status := "weird" }

theorem mkBook_to_dict (b : Book) : mkBook b.to_dict = b := rfl

theorem loadRecords_good (ks : List BookKwargs) :
    loadRecords (ks.map .good) = some (ks.map mkBook) := by
  induction ks with
  | nil => rfl
  | cons k ks ih => simp [loadRecords, JsonRecord.asKwargs, ih]

theorem loadRecords_to_dict (books : List Book) :
    loadRecords (books.map (fun b => .good b.to_dict)) = some books := by
  induction books with
  | nil => rfl
  | cons b bs ih => simp [loadRecords, JsonRecord.asKwargs, ih, mkBook_to_dict]

theorem loadRecords_bad (rs : List JsonRecord) (h : JsonRecord.bad ∈ rs) :
    loadRecords rs = none := by
  induction rs with
  | nil => cases h
  | cons r rs ih =>
    cases r with
    | bad => rfl
    | good k =>
      have hr : JsonRecord.bad ∈ rs := by
        rcases List.mem_cons.mp h with h1 | h1
        · simp at h1
        · exact h1
      simp [loadRecords, JsonRecord.asKwargs, ih hr]

/-- C1: persisting a catalog with `save_to_file` (the write succeeding)
and reloading it with `load_from_file` from the file just written yields
exactly the original list of books, field-for-field and in order, with no
load warnings. -/
theorem C1_save_load_roundtrip (books : List Book) (file : JsonFile) :
    load_from_file (save_to_file true books file).1 = (books, []) := by
  simp [save_to_file, load_from_file, loadRecords_to_dict]

/-- C3: adding a book whose ISBN is already present fails with the
`ValueError` "ISBN already exists in catalog." and produces no new state;
and in the two-adds-to-an-empty-catalog scenario, after the first add the
catalog holds exactly `[b1]` and the second add (same ISBN) fails with
that `ValueError`, leaving the catalog at `[b1]`. -/
theorem C3_duplicate_add (writeOk : Bool) (st : LibraryState)
    (b b1 b2 : Book) (f : JsonFile)
    (h : ∃ x ∈ st.books, x.isbn = b.isbn) (h12 : b1.isbn = b2.isbn) :
    add_book writeOk st b = .error (.valueError "ISBN already exists in catalog.") ∧
    ∀ st1, add_book writeOk { books := [], file := f, log := [] } b1 = .ok st1 →
      st1.books = [b1] ∧
      add_book writeOk st1 b2 = .error (.valueError "ISBN already exists in catalog.") := by
  rcases h with ⟨x, hx, he⟩
  have hdup : st.books.any (fun c => c.isbn == b.isbn) = true :=
    List.any_eq_true.mpr ⟨x, hx, by simp [he]⟩
  refine ⟨by simp [add_book, hdup], ?_⟩
  intro st1 hadd
  have hred : add_book writeOk { books := [], file := f, log := [] } b1 =
      .ok { books := [b1], file := (save_to_file writeOk [b1] f).1,
            log := (save_to_file writeOk [b1] f).2 ++ [logBookAdded b1] } := by
    simp [add_book]
  rw [hred] at hadd
  have hst1 := (Except.ok.inj hadd).symm
  subst hst1
  refine ⟨rfl, ?_⟩
  simp [add_book, h12]

/-- C3 witness: duplicate add rejected on a concrete one-book catalog. -/
theorem C3_duplicate_add_witness :
    add_book true stDune bookDuneCopy =
      .error (.valueError "ISBN already exists in catalog.") :=
  (C3_duplicate_add true stDune bookDuneCopy bookDune bookDuneCopy (.array [])
    ⟨bookDune, by decide, by decide⟩ (by decide)).1

/-- C4 counterexample: with the file write failing, `add_book` still
returns plain success (`.ok`) to its caller — indistinguishable from a
durable write.  The failure shows up only in the log, while the in-memory
mutation is retained and the backing file is left as it was.  So the
failed write is NOT surfaced to the caller as an error condition. -/
theorem C4_counterexample :
    add_book false { books := [], file := .array [], log := [] } bookDune =
      .ok { books := [bookDune], file := .array [],
            log := [LOG_SAVE_FAILED, logBookAdded bookDune] } := rfl

/-- C4 (amended): when the file write fails during persist the failure is
logged and the in-memory mutation is retained, but the caller is NOT
informed — `save_to_file` catches the exception and returns normally, so
a mutating operation such as `add_book` reports plain success; the
failure is observable only in the log, the backing file staying as it
was. -/
theorem C4_save_failure_swallowed (st : LibraryState) (b : Book)
    (books : List Book) (f : JsonFile)
    (h : st.books.any (fun c => c.isbn == b.isbn) = false) :
    save_to_file false books f = (f, [LOG_SAVE_FAILED]) ∧
    add_book false st b =
      .ok { books := st.books ++ [b], file := st.file,
            log := st.log ++ [LOG_SAVE_FAILED, logBookAdded b] } := by
  refine ⟨rfl, ?_⟩
  simp [add_book, h, save_to_file]

/-- C4 witness: the amended statement at a concrete input. -/
theorem C4_save_failure_swallowed_witness :
    save_to_file false [bookDune] (.array []) = (.array [], [LOG_SAVE_FAILED]) ∧
    add_book false stDune bookIssuedBob =
      .ok { books := [bookDune, bookIssuedBob], file := .array [],
            log := [LOG_SAVE_FAILED, logBookAdded bookIssuedBob] } :=
  C4_save_failure_swallowed stDune bookIssuedBob [bookDune] (.array []) (by decide)

/-- C5: loading from a backing file whose content is not valid structured
data — unparseable text, parseable JSON that is not an array of records,
or an array containing a record on which `Book(**item)` raises — yields
an empty in-memory catalog together with a logged message, and returns
normally (the exception is caught, never reaching the caller). -/
theorem C5_corrupt_load (rs : List JsonRecord) (h : JsonRecord.bad ∈ rs) :
    load_from_file .invalid = ([], [LOG_JSON_CORRUPT]) ∧
    load_from_file .nonArrayData = ([], [LOG_LOAD_ERROR]) ∧
    load_from_file (.array rs) = ([], [LOG_LOAD_ERROR]) := by
  refine ⟨rfl, rfl, ?_⟩
  simp [load_from_file, loadRecords_bad rs h]

/-- C5 witness: a concrete corrupt array. -/
theorem C5_corrupt_load_witness :
    load_from_file (.array [JsonRecord.bad]) = ([], [LOG_LOAD_ERROR]) :=
  (C5_corrupt_load [JsonRecord.bad] (by decide)).2.2

theorem isoformatSeconds_ne_empty (d : PyDateTime) : d.isoformatSeconds ≠ "" := by
  intro h
  have hlen := congrArg String.length h
  rw [PyDateTime.isoformatSeconds] at hlen
  simp only [String.length_append] at hlen
  have h1 : ("-" : String).length = 1 := rfl
  have h2 : ("T" : String).length = 1 := rfl
  have h3 : (":" : String).length = 1 := rfl
  have h4 : ("" : String).length = 0 := rfl
  rw [h1, h2, h3, h4] at hlen
  omega

theorem mem_replaceFirst (l : List Book) (isbn : String) (nb x : Book)
    (h : x ∈ replaceFirst l isbn nb) : x = nb ∨ x ∈ l := by
  induction l with
  | nil => simp [replaceFirst] at h
  | cons b bs ih =>
    simp only [replaceFirst] at h
    by_cases hb : (b.isbn == isbn) = true
    · rw [if_pos hb] at h
      rcases List.mem_cons.mp h with h1 | h1
      · exact .inl h1
      · exact .inr (List.mem_cons.mpr (.inr h1))
    · rw [if_neg hb] at h
      rcases List.mem_cons.mp h with h1 | h1
      · exact .inr (List.mem_cons.mpr (.inl h1))
      · rcases ih h1 with h2 | h2
        · exact .inl h2
        · exact .inr (List.mem_cons.mpr (.inr h2))

theorem add_book_dup (writeOk : Bool) (st : LibraryState) (b : Book)
    (h : st.books.any (fun c => c.isbn == b.isbn) = true) :
    add_book writeOk st b = .error (.valueError "ISBN already exists in catalog.") := by
  simp [add_book, h]

theorem add_book_success (writeOk : Bool) (st : LibraryState) (b : Book)
    (h : st.books.any (fun c => c.isbn == b.isbn) = false) :
    add_book writeOk st b = .ok (afterAdd writeOk st b) := by
  simp [add_book, h, afterAdd]

theorem issue_book_not_found (writeOk : Bool) (st : LibraryState)
    (isbn user : String) (now : PyDateTime)
    (hfind : search_by_isbn st.books isbn = none) :
    issue_book writeOk st isbn user now =
      .error (.fileNotFoundError "Book with that ISBN not found.") := by
  simp [issue_book, hfind]

theorem issue_book_conflict (writeOk : Bool) (st : LibraryState)
    (isbn user : String) (now : PyDateTime) (bk : Book)
    (hfind : search_by_isbn st.books isbn = some bk)
    (hav : bk.is_available = false) :
    issue_book writeOk st isbn user now =
      .error (.exception ("Book already issued to " ++ bk.issued_to ++ ".")) := by
  simp [issue_book, hfind, Book.issue, hav]

theorem issue_book_success (writeOk : Bool) (st : LibraryState)
    (isbn user : String) (now : PyDateTime) (bk : Book)
    (hfind : search_by_isbn st.books isbn = some bk)
    (hav : bk.is_available = true) :
    issue_book writeOk st isbn user now =
      .ok (afterSave writeOk st
        (replaceFirst st.books isbn (issuedVersion bk user now))) := by
  simp [issue_book, hfind, Book.issue, hav, afterSave, issuedVersion]

theorem inv_return_book_not_found (writeOk : Bool) (st : LibraryState)
    (isbn : String) (hfind : search_by_isbn st.books isbn = none) :
    inv_return_book writeOk st isbn =
      .error (.fileNotFoundError "Book not found.") := by
  simp [inv_return_book, hfind]

theorem inv_return_book_conflict (writeOk : Bool) (st : LibraryState)
    (isbn : String) (bk : Book)
    (hfind : search_by_isbn st.books isbn = some bk)
    (hav : bk.is_available = true) :
    inv_return_book writeOk st isbn =
      .error (.exception "Book is already available.") := by
  simp [inv_return_book, hfind, Book.return_book, hav]

theorem inv_return_book_success (writeOk : Bool) (st : LibraryState)
    (isbn : String) (bk : Book)
    (hfind : search_by_isbn st.books isbn = some bk)
    (hav : bk.is_available = false) :
    inv_return_book writeOk st isbn =
      .ok (afterSave writeOk st
        (replaceFirst st.books isbn (returnedVersion bk))) := by
  simp [inv_return_book, hfind, Book.return_book, hav, afterSave, returnedVersion]

theorem load_from_file_good (ks : List BookKwargs) :
    load_from_file (.array (ks.map .good)) = (ks.map mkBook, []) := by
  simp [load_from_file, loadRecords_good]

theorem invariant_issuedVersion (bk : Book) (user : String) (now : PyDateTime)
    (h : user ≠ "") : (issuedVersion bk user now).invariant :=
  iff_of_true ⟨h, isoformatSeconds_ne_empty now⟩ rfl

theorem invariant_returnedVersion (bk : Book) : (returnedVersion bk).invariant :=
  iff_of_false (fun hc => hc.1 rfl)
    (fun h => (show ¬ ("available" : String) = "issued" by decide) h)

/-- C2 counterexample: the invariant does NOT survive `issue_book` with
an arbitrary user name.  Issuing the available `bookDune` to the empty
user name succeeds and leaves a book with `status = "issued"` but
`issued_to = ""`: the claim fails for the empty user name. -/
theorem C2_counterexample :
    issue_book true stDune "111" "" dt0 =
      .ok { books := [bookIssuedEmptyUser],
            file := .array [JsonRecord.good bookIssuedEmptyUser.to_dict],
            log := [] } ∧
    bookIssuedEmptyUser.status = "issued" ∧
    ¬ bookIssuedEmptyUser.invariant := by
  refine ⟨rfl, rfl, by decide⟩

/-- C2 (amended): `issued_to`/`issued_on` are non-empty iff
status = issued is preserved by every catalog operation, provided the
book given to `add_book` satisfies it, `issue_book` is called with a
NON-EMPTY user name, and every record in the loaded file satisfies it
(neither `issue_book` nor `load_from_file` validates this). -/
theorem C2_invariant_preserved (writeOk : Bool) (st st1 st2 st3 : LibraryState)
    (b : Book) (isbn user : String) (now : PyDateTime) (ks : List BookKwargs)
    (hinv : ∀ x ∈ st.books, x.invariant) :
    (add_book writeOk st b = .ok st1 → b.invariant →
      ∀ x ∈ st1.books, x.invariant) ∧
    (user ≠ "" → issue_book writeOk st isbn user now = .ok st2 →
      ∀ x ∈ st2.books, x.invariant) ∧
    (inv_return_book writeOk st isbn = .ok st3 →
      ∀ x ∈ st3.books, x.invariant) ∧
    ((∀ k ∈ ks, (mkBook k).invariant) →
      ∀ x ∈ (load_from_file (.array (ks.map .good))).1, x.invariant) := by
  refine ⟨?_, ?_, ?_, ?_⟩
  · intro hadd hb x hx
    by_cases hdup : (st.books.any (fun c => c.isbn == b.isbn)) = true
    · rw [add_book_dup writeOk st b hdup] at hadd
      simp at hadd
    · have hfalse : st.books.any (fun c => c.isbn == b.isbn) = false := by
        simpa using hdup
      rw [add_book_success writeOk st b hfalse] at hadd
      have heq := Except.ok.inj hadd
      rw [← heq] at hx
      simp only [afterAdd] at hx
      rcases List.mem_append.mp hx with h1 | h1
      · exact hinv x h1
      · rw [List.mem_singleton.mp h1]
        exact hb
  · intro huser hiss x hx
    cases hfind : search_by_isbn st.books isbn with
    | none =>
      rw [issue_book_not_found writeOk st isbn user now hfind] at hiss
      simp at hiss
    | some bk =>
      by_cases hav : bk.is_available = true
      · rw [issue_book_success writeOk st isbn user now bk hfind hav] at hiss
        have heq := Except.ok.inj hiss
        rw [← heq] at hx
        simp only [afterSave] at hx
        rcases mem_replaceFirst st.books isbn (issuedVersion bk user now) x hx with h1 | h1
        · rw [h1]
          exact invariant_issuedVersion bk user now huser
        · exact hinv x h1
      · have hav' : bk.is_available = false := by simpa using hav
        rw [issue_book_conflict writeOk st isbn user now bk hfind hav'] at hiss
        simp at hiss
  · intro hret x hx
    cases hfind : search_by_isbn st.books isbn with
    | none =>
      rw [inv_return_book_not_found writeOk st isbn hfind] at hret
      simp at hret
    | some bk =>
      by_cases hav : bk.is_available = true
      · rw [inv_return_book_conflict writeOk st isbn bk hfind hav] at hret
        simp at hret
      · have hav' : bk.is_available = false := by simpa using hav
        rw [inv_return_book_success writeOk st isbn bk hfind hav'] at hret
        have heq := Except.ok.inj hret
        rw [← heq] at hx
        simp only [afterSave] at hx
        rcases mem_replaceFirst st.books isbn (returnedVersion bk) x hx with h1 | h1
        · rw [h1]
          exact invariant_returnedVersion bk
        · exact hinv x h1
  · intro hks x hx
    rw [load_from_file_good ks] at hx
    simp only [List.mem_map] at hx
    rcases hx with ⟨k, hk, hkx⟩
    rw [← hkx]
    exact hks k hk

/-- C2 witness: the amended preservation applied to issuing `bookDune`
to "Alice" from the concrete state `stDune`. -/
theorem C2_invariant_preserved_witness : bookIssuedAlice.invariant :=
  (C2_invariant_preserved false stDune stDune stDuneIssuedAlice stDune
      bookDune "111" "Alice" dt0 [] (by decide)).2.1
    (by decide) rfl bookIssuedAlice (by simp [stDuneIssuedAlice])

/-- C6 counterexample: issuing an available book to the EMPTY user name
succeeds but sets `issued_to` to the empty string, so issue does not
always set `issued_to` to a non-empty value. -/
theorem C6_counterexample :
    bookDune.issue "" dt0 = .ok bookIssuedEmptyUser ∧
    bookIssuedEmptyUser.issued_to = "" := ⟨rfl, rfl⟩

/-- C6 (amended): for every available book, `issue(user)` sets
status = issued, `issued_to` to the given user name (hence non-empty
exactly when the name is non-empty) and `issued_on` to the current
timestamp, which is always a non-empty string; for every issued book,
`return_book` sets status = available and clears `issued_to` and
`issued_on` to empty strings. -/
theorem C6_issue_sets_return_clears (b c : Book) (user : String)
    (now : PyDateTime)
    (hb : b.is_available = true) (hc : c.is_available = false) :
    b.issue user now = .ok (issuedVersion b user now) ∧
    (issuedVersion b user now).status = "issued" ∧
    (issuedVersion b user now).issued_to = user ∧
    (issuedVersion b user now).issued_on = now.isoformatSeconds ∧
    now.isoformatSeconds ≠ "" ∧
    c.return_book = .ok (returnedVersion c) ∧
    (returnedVersion c).status = "available" ∧
    (returnedVersion c).issued_to = "" ∧
    (returnedVersion c).issued_on = "" := by
  refine ⟨?_, rfl, rfl, rfl, isoformatSeconds_ne_empty now, ?_, rfl, rfl, rfl⟩
  · simp [Book.issue, hb, issuedVersion]
  · simp [Book.return_book, hc, returnedVersion]

/-- C6 witness: issue and return on concrete books. -/
theorem C6_issue_sets_return_clears_witness :
    bookDune.issue "Alice" dt0 = .ok (issuedVersion bookDune "Alice" dt0) :=
  (C6_issue_sets_return_clears bookDune bookIssuedBob "Alice" dt0
    (by decide) (by decide)).1

theorem search_by_isbn_first (pre post : List Book) (b : Book) (isbn : String)
    (hpre : ∀ x ∈ pre, x.isbn ≠ isbn) (hb : b.isbn = isbn) :
    search_by_isbn (pre ++ b :: post) isbn = some b := by
  induction pre with
  | nil =>
    show List.find? (fun c => c.isbn == isbn) (b :: post) = some b
    exact List.find?_cons_of_pos _ (by simp [hb])
  | cons a as ih =>
    show List.find? (fun c => c.isbn == isbn) (a :: (as ++ b :: post)) = some b
    rw [List.find?_cons_of_neg _
      (by simpa using hpre a (List.mem_cons_self a as))]
    exact ih (fun x hx => hpre x (List.mem_cons_of_mem a hx))

theorem replaceFirst_first (pre post : List Book) (b nb : Book) (isbn : String)
    (hpre : ∀ x ∈ pre, x.isbn ≠ isbn) (hb : b.isbn = isbn) :
    replaceFirst (pre ++ b :: post) isbn nb = pre ++ nb :: post := by
  induction pre with
  | nil => simp [replaceFirst, hb]
  | cons a as ih =>
    have ha : (a.isbn == isbn) = false := by
      simpa using hpre a (List.mem_cons_self a as)
    simp only [List.cons_append, replaceFirst, ha, if_false, Bool.false_eq_true]
    exact congrArg (a :: ·) (ih (fun x hx => hpre x (List.mem_cons_of_mem a hx)))

/-- C7: `issue_book` fails with `FileNotFoundError` when the ISBN is
absent (in this model an error outcome carries no new state: the books,
the backing file and the log are all left as the caller had them, so
nothing is rewritten); when the ISBN is present it delegates to
`Book.issue`, whose conflict exception propagates as an error — again
before any save — and only the success branch saves to the file. -/
theorem C7_issue_book_dispatch (writeOk : Bool) (st : LibraryState)
    (isbn user : String) (now : PyDateTime) :
    (search_by_isbn st.books isbn = none →
      issue_book writeOk st isbn user now =
        .error (.fileNotFoundError "Book with that ISBN not found.")) ∧
    (∀ bk, search_by_isbn st.books isbn = some bk → bk.is_available = false →
      issue_book writeOk st isbn user now =
        .error (.exception ("Book already issued to " ++ bk.issued_to ++ "."))) ∧
    (∀ bk, search_by_isbn st.books isbn = some bk → bk.is_available = true →
      issue_book writeOk st isbn user now =
        .ok (afterSave writeOk st
          (replaceFirst st.books isbn (issuedVersion bk user now)))) :=
  ⟨issue_book_not_found writeOk st isbn user now,
    fun bk h1 h2 => issue_book_conflict writeOk st isbn user now bk h1 h2,
    fun bk h1 h2 => issue_book_success writeOk st isbn user now bk h1 h2⟩

/-- C7 witness: a missing ISBN and a conflicting issue on concrete
states. -/
theorem C7_issue_book_dispatch_witness :
    issue_book true stDune "999" "Alice" dt0 =
      .error (.fileNotFoundError "Book with that ISBN not found.") ∧
    issue_book true { books := [bookIssuedBob], file := .array [], log := [] }
        "222" "Alice" dt0 =
      .error (.exception "Book already issued to Bob.") :=
  ⟨(C7_issue_book_dispatch true stDune "999" "Alice" dt0).1 rfl,
    (C7_issue_book_dispatch true
        { books := [bookIssuedBob], file := .array [], log := [] }
        "222" "Alice" dt0).2.1 bookIssuedBob rfl (by decide)⟩

/-- C8: returning an issued book succeeds, leaving status = available
with `issued_to`/`issued_on` empty, and a second `return_book` right
after fails with the conflict exception "Book is already available.";
the error outcome carries no state, so the book stays exactly as the
first call left it. -/
theorem C8_return_twice (b : Book) (h : b.is_available = false) :
    b.return_book = .ok (returnedVersion b) ∧
    (returnedVersion b).status = "available" ∧
    (returnedVersion b).issued_to = "" ∧
    (returnedVersion b).issued_on = "" ∧
    (returnedVersion b).return_book = .error "Book is already available." := by
  refine ⟨?_, rfl, rfl, rfl, ?_⟩
  · simp [Book.return_book, h, returnedVersion]
  · simp [Book.return_book, Book.is_available, returnedVersion]

/-- C8 witness: double return on a concrete issued book. -/
theorem C8_return_twice_witness :
    bookIssuedBob.return_book = .ok (returnedVersion bookIssuedBob) ∧
    (returnedVersion bookIssuedBob).return_book =
      .error "Book is already available." :=
  ⟨(C8_return_twice bookIssuedBob (by decide)).1,
    (C8_return_twice bookIssuedBob (by decide)).2.2.2.2⟩

/-- C9: `search_by_title` returns a sublist of the collection (so
matches come in collection order and nothing is added), a book is in the
result exactly when it is in the collection and its lowercased title
contains the lowercased query as a substring, and a query matching no
title yields `[]`; the function reads the list and returns a fresh one,
mutating nothing. -/
theorem C9_search_by_title (books : List Book) (q : String) :
    List.Sublist (search_by_title books q) books ∧
    (∀ b, b ∈ search_by_title books q ↔
      b ∈ books ∧ pyIn (pyLower q) (pyLower b.title) = true) ∧
    ((∀ b ∈ books, pyIn (pyLower q) (pyLower b.title) = false) →
      search_by_title books q = []) := by
  refine ⟨List.filter_sublist books, ?_, ?_⟩
  · intro b
    simp [search_by_title, List.mem_filter]
  · intro h
    rw [search_by_title, List.filter_eq_nil_iff]
    intro a ha
    simp [h a ha]

/-- C9 witness: a lower-case query matches a capitalized title, and a
query contained in no title returns the empty list. -/
theorem C9_search_by_title_witness :
    bookDune ∈ search_by_title [bookDune] "du" ∧
    search_by_title [bookDune] "zzz" = [] :=
  ⟨((C9_search_by_title [bookDune] "du").2.1 bookDune).mpr
      ⟨by decide, by decide⟩,
    (C9_search_by_title [bookDune] "zzz").2.2 (by decide)⟩

/-- C10: `load_from_file` accepts any array of well-formed records with
no validation at all — in particular several records may share one ISBN
and `status` may be any string — and `search_by_isbn` returns the first
record with the given ISBN in collection order; in-place mutation
through it (`replaceFirst`, hence `issue_book` and the return
counterpart) touches only that first record, leaving every later
duplicate unchanged and unreachable. -/
theorem C10_first_match_duplicates (ks : List BookKwargs)
    (pre post : List Book) (b nb : Book) (isbn user : String)
    (writeOk : Bool) (f : JsonFile) (lg : List String) (now : PyDateTime)
    (hpre : ∀ x ∈ pre, x.isbn ≠ isbn) (hb : b.isbn = isbn) :
    load_from_file (.array (ks.map .good)) = (ks.map mkBook, []) ∧
    search_by_isbn (pre ++ b :: post) isbn = some b ∧
    replaceFirst (pre ++ b :: post) isbn nb = pre ++ nb :: post ∧
    (b.is_available = true →
      issue_book writeOk { books := pre ++ b :: post, file := f, log := lg }
          isbn user now =
        .ok (afterSave writeOk
          { books := pre ++ b :: post, file := f, log := lg }
          (pre ++ issuedVersion b user now :: post))) := by
  refine ⟨load_from_file_good ks,
    search_by_isbn_first pre post b isbn hpre hb,
    replaceFirst_first pre post b nb isbn hpre hb, ?_⟩
  intro hav
  rw [issue_book_success writeOk _ isbn user now b
    (search_by_isbn_first pre post b isbn hpre hb) hav]
  rw [replaceFirst_first pre post b (issuedVersion b user now) isbn hpre hb]

/-- C10 witness: a file holding two records with ISBN "111" (the second
with an illegal status) loads unchecked, and lookup returns the first. -/
theorem C10_first_match_duplicates_witness :
    load_from_file
        (.array [.good bookDune.to_dict, .good bookDup2.to_dict]) =
      ([bookDune, bookDup2], []) ∧
    search_by_isbn [bookDune, bookDup2] "111" = some bookDune :=
  ⟨(C10_first_match_duplicates [bookDune.to_dict, bookDup2.to_dict]
      [] [bookDup2] bookDune bookDune "111" "Alice" true (.array []) [] dt0
      (by simp) rfl).1,
    (C10_first_match_duplicates [bookDune.to_dict, bookDup2.to_dict]
      [] [bookDup2] bookDune bookDune "111" "Alice" true (.array []) [] dt0
      (by simp) rfl).2.1⟩

end Assignment3
